import Mathlib

set_option maxHeartbeats 1600000

/-!
Verification of the Kvado Home Assistant integration
(`custom_components/kvado/api.py` and `custom_components/kvado/sensor.py`).

The development shallowly embeds the integration's core logic:
* the HTTP request engine `KvadoApiClient._make_request` with its
  retry/backoff/re-authentication state machine,
* the authentication manager `KvadoApiClient.authenticate`,
* the data-update coordinator `KvadoDataUpdateCoordinator._async_update_data`,
* the `send_meter_readings` service handler and its voluptuous schema.

JSON bodies are modelled by a Python-like value type `PyVal`; Python
exceptions raised by dict/list access are modelled with `Except PyErr`.
The network is an oracle `Nat → HttpResponse` giving the response to the
n-th HTTP request issued (in chronological order, across nested
re-authentication calls).  The mutual recursion between `_make_request`
and `authenticate` is made total with an explicit fuel parameter; `fuel`
is a modelling artefact, and `Outcome.outOfFuel` marks computations that
did not complete within the given fuel.
-/

namespace Kvado

/-- Python/JSON values as handled by the integration. -/
inductive PyVal where
  | none
  | bool (b : Bool)
  | int (n : Int)
  | str (s : String)
  | list (xs : List PyVal)
  | dict (fs : List (String × PyVal))

/-- Python exceptions that the modelled dict/list accesses can raise. -/
inductive PyErr where
  | attributeError
  | keyError
  | indexError
  | typeError
deriving DecidableEq

/-- First-match lookup in an association list (Python `dict` access;
the model only builds dicts with distinct keys, as Python does). -/
def lookupField : List (String × PyVal) → String → Option PyVal
  | [], _ => Option.none
  | (k, v) :: rest, key => if k = key then some v else lookupField rest key

/-- Python truthiness (`if x:`) for the modelled values. -/
def PyVal.truthy : PyVal → Bool
  | .none => false
  | .bool b => b
  | .int n => n ≠ 0
  | .str s => s ≠ ""
  | .list xs => !xs.isEmpty
  | .dict fs => !fs.isEmpty

/-- Python `isinstance(x, dict)`. -/
def PyVal.isDict : PyVal → Bool
  | .dict _ => true
  | _ => false

/-- Python `x.get(key, default)`: only dicts have `.get`; anything else
raises `AttributeError`. -/
def pyGet (v : PyVal) (key : String) (dflt : PyVal) : Except PyErr PyVal :=
  match v with
  | .dict fs => .ok ((lookupField fs key).getD dflt)
  | _ => .error .attributeError

/-- Python `x[key]` for a string key: `KeyError` when missing,
`TypeError` when `x` is not a dict. -/
def pySubscript (v : PyVal) (key : String) : Except PyErr PyVal :=
  match v with
  | .dict fs =>
    match lookupField fs key with
    | some x => .ok x
    | Option.none => .error .keyError
  | _ => .error .typeError

/-- Python `x[0]`: `IndexError` on an empty list or string,
`TypeError` on non-subscriptable values (a dict raises `KeyError`
because `0` is not one of the modelled string keys). -/
def pyIndex0 (v : PyVal) : Except PyErr PyVal :=
  match v with
  | .list (x :: _) => .ok x
  | .list [] => .error .indexError
  | .str s =>
    match s.data with
    | c :: _ => .ok (.str (String.mk [c]))
    | [] => .error .indexError
  | .dict _ => .error .keyError
  | _ => .error .typeError

/-- Python `key in x` for a string `key`: key test on dicts, membership
on lists, substring test on strings, `TypeError` otherwise. -/
def pyContainsKey (key : String) (v : PyVal) : Except PyErr Bool :=
  match v with
  | .dict fs => .ok (fs.any (fun kv => kv.1 = key))
  | .list xs => .ok (xs.any (fun x => match x with | .str t => t = key | _ => false))
  | .str s => .ok (s.containsSubstr key.toSubstring)
  | _ => .error .typeError

/-- Python `str(x)` for the scalar values the integration converts
(`str(meter["ID"])` with server-assigned int or string ids); container
renderings are simplified bracket forms. -/
def pyStr : PyVal → String
  | .none => "None"
  | .bool true => "True"
  | .bool false => "False"
  | .int n => toString n
  | .str s => s
  | .list _ => "[...]"
  | .dict _ => "{...}"

/-- Python dict assignment `d[k] = v`: overwrite in place when the key
exists, append otherwise (insertion order preserved, as in Python). -/
def assocSet (m : List (String × PyVal)) (k : String) (v : PyVal) :
    List (String × PyVal) :=
  if m.any (fun kv => kv.1 = k) then
    m.map (fun kv => if kv.1 = k then (k, v) else kv)
  else
    m ++ [(k, v)]

/-! ## The HTTP request engine (`api.py`) -/

def BASE_URL : String := "https://api.mobile.pc.kvado.ru"
def AUTH_ENDPOINT : String := "/2.0/authentication"
def ACCOUNTS_ENDPOINT : String := "/2.0/profile/accounts"
def RECEIPTS_ENDPOINT : String := "/3.0/receipts"
def METERS_ENDPOINT : String := "/2.0/meters"

def MAX_RETRIES : Nat := 5
def INITIAL_BACKOFF : Nat := 4
def BACKOFF_MULTIPLIER : Nat := 2

/-- Headers are a Python dict from header name to value. -/
abbrev Headers := List (String × PyVal)

/-- `DEFAULT_HEADERS` of `api.py`. -/
def defaultHeaders : Headers :=
  [("Kvado-Certificate",
      .str "K6zJ74q8pH49MeKZNqe4BZYymgdjCAxdKJTS37umE8s84rLxu7BCYnRY6CDYbNHf"),
   ("App-Source", .str "app_lk_citizen"),
   ("Connection", .str "Keep-Alive"),
   ("Accept-Encoding", .str "gzip"),
   ("Content-Type", .str "application/json; charset=UTF-8"),
   ("User-Agent", .str "AndroidResidentAccount/1.0")]

/-- `headers["Session-Id"] = ...` (api.py line 86). -/
def setHeader (hs : Headers) (k : String) (v : PyVal) : Headers :=
  if hs.any (fun kv => kv.1 = k) then
    hs.map (fun kv => if kv.1 = k then (k, v) else kv)
  else
    hs ++ [(k, v)]

/-- One HTTP exchange as seen by `_make_request`: either a
transport-level exception while issuing the request / reading the
response, or a status code together with the result of parsing the
body as JSON (`Option.none` = `response.json()` raises). -/
inductive HttpResponse where
  | exn
  | resp (status : Nat) (body : Option PyVal)

/-- The mutable credential state of `KvadoApiClient`
(`self.username/password/token/session_id`). -/
structure ClientState where
  username : String
  password : String
  token : PyVal
  sessionId : PyVal

/-- The observable execution environment threaded through a call:
credential state, number of HTTP requests issued so far (`idx` indexes
the oracle), the chronological list of back-off sleeps performed, and
the messages of `HomeAssistantError`s raised in the 400 branch
(api.py line 80; they are caught again by the blanket
`except Exception` at line 98). -/
structure Env where
  st : ClientState
  idx : Nat
  sleeps : List Nat
  raised : List PyVal

/-- Result of a fuelled computation. -/
inductive Outcome (α : Type) where
  | done (a : α)
  | outOfFuel

/-- The login payload of `authenticate` (api.py line 106). -/
def authPayload (st : ClientState) : PyVal :=
  .dict [("login", .str st.username), ("password", .str st.password)]

/-- The error message computed in the 400 branch (api.py lines 72-78):
the body's `message` field when the body parses to a dict holding one,
the generic `API returned status 400` when the dict has no such field,
and the `no readable error message` variant when `response.json()`
raises or the parsed body is not a dict (its `.get` raises
`AttributeError`, caught by the inner `except`). -/
def error400Message (body : Option PyVal) : PyVal :=
  match body with
  | some (.dict fs) => (lookupField fs "message").getD (.str "API returned status 400")
  | _ => .str "API returned status 400 with no readable error message"

/-- The tail of `authenticate` (api.py lines 114-134) applied to the
result of the login request: an empty/falsy/missing response reports
failure and leaves the credentials untouched; otherwise
`response.get("token")` / `response.get("sessionID")` replace them
(raising `AttributeError` before any mutation when the response is a
truthy non-dict).  The config-entry persistence is an external side
effect and is not part of the held state. -/
def authProcess (resp : Option PyVal) (st : ClientState) :
    Except PyErr (Bool × ClientState) :=
  match resp with
  | Option.none => .ok (false, st)
  | some v =>
    if v.truthy then
      match pyGet v "token" PyVal.none, pyGet v "sessionID" PyVal.none with
      | .ok tok, .ok sid => .ok (true, { st with token := tok, sessionId := sid })
      | .error e, _ => .error e
      | _, .error e => .error e
    else
      .ok (false, st)

/-- `KvadoApiClient._make_request` (api.py lines 46-103).

The `for attempt in range(MAX_RETRIES)` loop: 200 returns the parsed
body (a parse failure raises and is caught by the blanket except,
returning `None`); 400 computes the error message, raises
`HomeAssistantError` — which the enclosing `except Exception` of the
same iteration catches, so the call returns `None` with the message
only recorded (logged); 401 runs `self.authenticate()` — inlined here:
it issues the login POST through `_make_request` itself and applies
`authProcess` — and on success injects the refreshed session id into
the headers and `continue`s (advancing `attempt`), on failure returns
`None`, on an exception inside `authenticate` the blanket except again
returns `None`; 500 sleeps `backoff` and retries with doubled backoff;
any other status returns `None`.  Falling out of the loop returns
`None` (retry exhaustion).  Fuel is consumed on every iteration. -/
def mrLoop (o : Nat → HttpResponse) (fuel attempt backoff : Nat)
    (method endpoint : String) (headers : Headers) (payload : Option PyVal)
    (env : Env) : Outcome (Option PyVal × Env) :=
  if MAX_RETRIES ≤ attempt then
    .done (Option.none, env)
  else
    match fuel with
    | 0 => .outOfFuel
    | f + 1 =>
      let r := o env.idx
      let env1 : Env := { env with idx := env.idx + 1 }
      match r with
      | .exn => .done (Option.none, env1)
      | .resp status body =>
        if status = 200 then
          .done (body, env1)
        else if status = 400 then
          .done (Option.none, { env1 with raised := env1.raised ++ [error400Message body] })
        else if status = 401 then
          match mrLoop o f 0 INITIAL_BACKOFF "POST" AUTH_ENDPOINT defaultHeaders
              (some (authPayload env1.st)) env1 with
          | .outOfFuel => .outOfFuel
          | .done (resp, env2) =>
            match authProcess resp env2.st with
            | .error _ => .done (Option.none, env2)
            | .ok (false, st2) => .done (Option.none, { env2 with st := st2 })
            | .ok (true, st2) =>
              mrLoop o f (attempt + 1) backoff method endpoint
                (setHeader headers "Session-Id" st2.sessionId) payload
                { env2 with st := st2 }
        else if status = 500 then
          mrLoop o f (attempt + 1) (backoff * BACKOFF_MULTIPLIER) method endpoint
            headers payload { env1 with sleeps := env1.sleeps ++ [backoff] }
        else
          .done (Option.none, env1)

/-- Entry point of `_make_request`: the loop starts with `attempt = 0`
and `backoff = INITIAL_BACKOFF`. -/
def makeRequest (o : Nat → HttpResponse) (fuel : Nat) (method endpoint : String)
    (headers : Headers) (payload : Option PyVal) (env : Env) :
    Outcome (Option PyVal × Env) :=
  mrLoop o fuel 0 INITIAL_BACKOFF method endpoint headers payload env

/-- `KvadoApiClient.authenticate` (api.py lines 105-134): issue the
login POST through `_make_request` and process the response with
`authProcess`.  `Except.error` is an escaped Python exception. -/
def authenticate (o : Nat → HttpResponse) (fuel : Nat) (env : Env) :
    Outcome (Except PyErr Bool × Env) :=
  match fuel with
  | 0 => .outOfFuel
  | f + 1 =>
    match mrLoop o f 0 INITIAL_BACKOFF "POST" AUTH_ENDPOINT defaultHeaders
        (some (authPayload env.st)) env with
    | .outOfFuel => .outOfFuel
    | .done (resp, env2) =>
      match authProcess resp env2.st with
      | .error e => .done (.error e, env2)
      | .ok (b, st2) => .done (.ok b, { env2 with st := st2 })

/-- Engine variant following the spec's words (§4.1), for comparison
with the source-derived `mrLoop`: "Authentication failure (HTTP 401)
triggers a synchronous re-authentication attempt …; on success the
request is retried immediately with the refreshed session identifier
injected into headers, without consuming a retry-budget slot".  The
only difference from `mrLoop` is that the retry after a successful
re-authentication keeps `attempt` unchanged. -/
def specMrLoop (o : Nat → HttpResponse) (fuel attempt backoff : Nat)
    (method endpoint : String) (headers : Headers) (payload : Option PyVal)
    (env : Env) : Outcome (Option PyVal × Env) :=
  if MAX_RETRIES ≤ attempt then
    .done (Option.none, env)
  else
    match fuel with
    | 0 => .outOfFuel
    | f + 1 =>
      let r := o env.idx
      let env1 : Env := { env with idx := env.idx + 1 }
      match r with
      | .exn => .done (Option.none, env1)
      | .resp status body =>
        if status = 200 then
          .done (body, env1)
        else if status = 400 then
          .done (Option.none, { env1 with raised := env1.raised ++ [error400Message body] })
        else if status = 401 then
          match specMrLoop o f 0 INITIAL_BACKOFF "POST" AUTH_ENDPOINT defaultHeaders
              (some (authPayload env1.st)) env1 with
          | .outOfFuel => .outOfFuel
          | .done (resp, env2) =>
            match authProcess resp env2.st with
            | .error _ => .done (Option.none, env2)
            | .ok (false, st2) => .done (Option.none, { env2 with st := st2 })
            | .ok (true, st2) =>
              specMrLoop o f attempt backoff method endpoint
                (setHeader headers "Session-Id" st2.sessionId) payload
                { env2 with st := st2 }
        else if status = 500 then
          specMrLoop o f (attempt + 1) (backoff * BACKOFF_MULTIPLIER) method endpoint
            headers payload { env1 with sleeps := env1.sleeps ++ [backoff] }
        else
          .done (Option.none, env1)

/-- Entry point of the spec-words engine variant. -/
def specMakeRequest (o : Nat → HttpResponse) (fuel : Nat) (method endpoint : String)
    (headers : Headers) (payload : Option PyVal) (env : Env) :
    Outcome (Option PyVal × Env) :=
  specMrLoop o fuel 0 INITIAL_BACKOFF method endpoint headers payload env

/-! ## The account/meter data aggregator (`sensor.py`) -/

/-- An account as used by the coordinator: `account["ID"]` and
`account["organizationID"]` are the server-assigned integer
identifiers which the source converts with `str(...)` at every use. -/
structure Account where
  ID : Nat
  organizationID : Nat

/-- The coordinator's data: `{"accounts": {...}, "meters": {...}}`,
two Python dicts from stringified identifier to recorded value. -/
structure Snapshot where
  accounts : List (String × PyVal)
  meters : List (String × PyVal)

/-- The per-account fetch collaborators of the coordinator, abstracting
`KvadoApiClient.get_receipts` (year, account id, organization id) and
`KvadoApiClient.get_meters` (account id, organization id).  Both wrap
`_make_request`, which returns the parsed body or `None` and never lets
an exception escape, hence the `Option PyVal` result type. -/
structure Fetchers where
  receiptsOf : Nat → String → String → Option PyVal
  metersOf : String → String → Option PyVal

/-- sensor.py lines 259-265: `receipts_data.get("info", {})
.get("total_pay_amount", {}).get("value") if receipts_data and
isinstance(receipts_data, dict) else "N/A"`. -/
def receiptsTotalPayAmount (receipts_data : Option PyVal) : Except PyErr PyVal :=
  match receipts_data with
  | Option.none => .ok (.str "N/A")
  | some rd =>
    if rd.truthy && rd.isDict then
      match pyGet rd "info" (.dict []) with
      | .error e => .error e
      | .ok info =>
        match pyGet info "total_pay_amount" (.dict []) with
        | .error e => .error e
        | .ok tpa => pyGet tpa "value" PyVal.none
    else .ok (.str "N/A")

/-- sensor.py lines 275-277: one iteration of `for meter in
meters["meters"]`: `meter_id = str(meter["ID"])`; `value =
meter.get("values", [{}])[0].get("value", "N/A")`;
`data["meters"][meter_id] = value`. -/
def meterStep (ms : List (String × PyVal)) (meter : PyVal) :
    Except PyErr (List (String × PyVal)) :=
  match pySubscript meter "ID" with
  | .error e => .error e
  | .ok mid =>
    match pyGet meter "values" (.list [.dict []]) with
    | .error e => .error e
    | .ok values =>
      match pyIndex0 values with
      | .error e => .error e
      | .ok first =>
        match pyGet first "value" (.str "N/A") with
        | .error e => .error e
        | .ok value => .ok (assocSet ms (pyStr mid) value)

/-- Python iteration (`for meter in x`): lists yield their elements,
dicts their keys, strings their characters; other values raise
`TypeError`. -/
def pyIter (v : PyVal) : Except PyErr (List PyVal) :=
  match v with
  | .list xs => .ok xs
  | .dict fs => .ok (fs.map (fun kv => .str kv.1))
  | .str s => .ok (s.data.map (fun c => .str (String.mk [c])))
  | _ => .error .typeError

/-- Folding `meterStep` over the fetched meter list. -/
def meterFold (ms : List (String × PyVal)) : List PyVal →
    Except PyErr (List (String × PyVal))
  | [] => .ok ms
  | m :: rest =>
    match meterStep ms m with
    | .error e => .error e
    | .ok ms' => meterFold ms' rest

/-- sensor.py lines 268-277: the meters part of one account iteration:
`if meters and "meters" in meters:` then the per-meter loop. -/
def metersPhase (meters : Option PyVal) (snap : Snapshot) : Except PyErr Snapshot :=
  match meters with
  | Option.none => .ok snap
  | some mv =>
    if mv.truthy then
      match pyContainsKey "meters" mv with
      | .error e => .error e
      | .ok false => .ok snap
      | .ok true =>
        match pySubscript mv "meters" with
        | .error e => .error e
        | .ok msv =>
          match pyIter msv with
          | .error e => .error e
          | .ok lst =>
            match meterFold snap.meters lst with
            | .error e => .error e
            | .ok ms' => .ok { snap with meters := ms' }
    else .ok snap

/-- One iteration of `for account in self._accounts` (sensor.py lines
250-277): skip unselected accounts; otherwise fetch receipts, record
the extracted total (or sentinel) under `str(account["ID"])`, then
fetch and process the meters. -/
def accountStep (fs : Fetchers) (current_year : Nat) (selected : List String)
    (snap : Snapshot) (account : Account) : Except PyErr Snapshot :=
  let account_id := toString account.ID
  if account_id ∈ selected then
    match receiptsTotalPayAmount
        (fs.receiptsOf current_year account_id (toString account.organizationID)) with
    | .error e => .error e
    | .ok tpa =>
      metersPhase (fs.metersOf account_id (toString account.organizationID))
        { snap with accounts := assocSet snap.accounts account_id tpa }
  else .ok snap

/-- The account loop of `_async_update_data`. -/
def runAccounts (fs : Fetchers) (current_year : Nat) (selected : List String) :
    Snapshot → List Account → Except PyErr Snapshot
  | snap, [] => .ok snap
  | snap, a :: rest =>
    match accountStep fs current_year selected snap a with
    | .error e => .error e
    | .ok snap' => runAccounts fs current_year selected snap' rest

/-- `KvadoDataUpdateCoordinator._async_update_data` (sensor.py lines
244-282): build a fresh `{"accounts": {}, "meters": {}}`, iterate the
setup-time account list, and return the assembled data; any escaped
exception is converted to `UpdateFailed` (here `Except.error`). -/
def asyncUpdateData (fs : Fetchers) (current_year : Nat) (selected : List String)
    (accounts : List Account) : Except PyErr Snapshot :=
  runAccounts fs current_year selected { accounts := [], meters := [] } accounts

/-- Modelled from the spec: the publish step of Home Assistant's
`DataUpdateCoordinator` (an external collaborator whose code is not in
this repository).  Spec §4.3/§7: the coordinator replaces the previous
Snapshot atomically with the value returned by `_async_update_data`,
and a cycle that raises `UpdateFailed` "retains the previous Snapshot"
— "scheduled refresh failures leave the previous Snapshot visible". -/
def coordinatorRefresh (published : Snapshot) (fs : Fetchers) (current_year : Nat)
    (selected : List String) (accounts : List Account) : Snapshot :=
  match asyncUpdateData fs current_year selected accounts with
  | .ok s => s
  | .error _ => published

/-! ## The `send_meter_readings` service (`sensor.py`) -/

/-- A Home Assistant entity state as consulted by the service handler:
`entity.domain` and `entity.attributes`. -/
structure EntityState where
  domain : String
  attributes : List (String × PyVal)

/-- `vol.Coerce(float)` applied to `newValue`: numbers and booleans
coerce, a string coerces when it parses as a number, everything else
is invalid.  (Floats are modelled by their integer part; no claim
depends on fractional values.) -/
def coerceFloat (v : PyVal) : Option PyVal :=
  match v with
  | .int n => some (.int n)
  | .bool b => some (.int (if b then 1 else 0))
  | .str s => (s.toInt?).map (fun n => .int n)
  | _ => Option.none

/-- One element of `meter_readings` against the inner
`vol.Schema({"entity_id": str, "newValue": Coerce(float)})`. -/
def validReading (v : PyVal) : Option PyVal :=
  match v with
  | .dict fs =>
    if fs.all (fun kv => kv.1 = "entity_id" || kv.1 = "newValue") then
      match lookupField fs "entity_id", lookupField fs "newValue" with
      | some (.str e), some nv =>
        (coerceFloat nv).map (fun nv' => .dict [("entity_id", .str e), ("newValue", nv')])
      | _, _ => Option.none
    else Option.none
  | _ => Option.none

/-- `SEND_METER_READINGS_SCHEMA` (sensor.py lines 24-42): a dict with a
required string `entity_id`, a required `meter_readings` list whose
elements match the reading schema and whose length is at least 1
(`vol.Length(min=1)`), and an optional boolean `confirm` defaulting to
`False`; unknown keys are invalid (voluptuous default). -/
def sendMeterReadingsSchema (data : PyVal) : Except String PyVal :=
  match data with
  | .dict fs =>
    if fs.all (fun kv => kv.1 = "entity_id" || kv.1 = "meter_readings" || kv.1 = "confirm") then
      match lookupField fs "entity_id" with
      | some (.str e) =>
        (match lookupField fs "meter_readings" with
         | some (.list rs) =>
           (match rs.mapM validReading with
            | some rs' =>
              if rs'.length ≥ 1 then
                (match (lookupField fs "confirm").getD (.bool false) with
                 | .bool c =>
                   .ok (.dict [("entity_id", .str e),
                               ("meter_readings", .list rs'),
                               ("confirm", .bool c)])
                 | _ => .error "confirm must be a boolean")
              else .error "length of value must be at least 1 for dictionary value @ data['meter_readings']"
            | Option.none => .error "invalid meter_readings entry")
         | some _ => .error "expected a list for dictionary value @ data['meter_readings']"
         | Option.none => .error "required key not provided @ data['meter_readings']")
      | some _ => .error "expected str for dictionary value @ data['entity_id']"
      | Option.none => .error "required key not provided @ data['entity_id']"
    else .error "extra keys not allowed"
  | _ => .error "expected a dictionary"

/-- The dispatch collaborator: `api_client.send_meter_readings(...)`,
abstracted by its result.  The handler model counts its invocations so
that "no call reaches the request engine" is observable. -/
abbrev SendApi := String → String → List PyVal → Bool → Option PyVal

/-- `handle_send_meter_readings` (sensor.py lines 99-175): validate the
call data against the schema (`HomeAssistantError` on `vol.Invalid`),
check that the target entity is a sensor carrying an `Account ID`
attribute, resolve and check every referenced meter entity, build the
readings payload, and dispatch through the API client; a `None` result
is reported as an error.  The returned `Nat` counts the API-client
dispatches performed. -/
def handleSendMeterReadings (states : String → Option EntityState)
    (api : SendApi) (data : PyVal) : Except String Unit × Nat :=
  match sendMeterReadingsSchema data with
  | .error e => (.error ("Invalid input: " ++ e), 0)
  | .ok vd =>
    match vd with
    | .dict vfs =>
      let entity_id := pyStr ((lookupField vfs "entity_id").getD PyVal.none)
      let confirm := match lookupField vfs "confirm" with
        | some (.bool c) => c
        | _ => false
      match states entity_id with
      | Option.none =>
        (.error ("Invalid entity_id " ++ entity_id ++ ": must be a valid KvadoSensor"), 0)
      | some ent =>
        if ent.domain = "sensor" && ent.attributes.any (fun kv => kv.1 = "Account ID") then
          let account_id := pyStr ((lookupField ent.attributes "Account ID").getD PyVal.none)
          let organization_id := pyStr ((lookupField ent.attributes "Organization ID").getD PyVal.none)
          let readings := match lookupField vfs "meter_readings" with
            | some (.list rs) => rs
            | _ => []
          match readings.mapM (fun r =>
            let rid := pyStr ((match r with
              | .dict rfs => lookupField rfs "entity_id"
              | _ => Option.none).getD PyVal.none)
            match states rid with
            | Option.none => Option.none
            | some ment =>
              if ment.domain = "sensor" && ment.attributes.any (fun kv => kv.1 = "Meter ID") then
                let meter_id := (lookupField ment.attributes "Meter ID").getD PyVal.none
                let nv := (match r with
                  | .dict rfs => lookupField rfs "newValue"
                  | _ => Option.none).getD PyVal.none
                some (PyVal.dict [("ID", meter_id),
                  ("values", .list [.dict [("systemCatalogBetID", .int 1), ("newValue", nv)]])])
              else Option.none) with
          | Option.none =>
            (.error "Invalid meter entity_id: must be a valid KvadoMeterSensor", 0)
          | some meter_readings =>
            match api account_id organization_id meter_readings confirm with
            | Option.none => (.error "Failed to send meter readings. Check Home Assistant logs", 1)
            | some _ => (.ok (), 1)
        else
          (.error ("Invalid entity_id " ++ entity_id ++ ": must be a valid KvadoSensor"), 0)
    | _ => (.error "Invalid input", 0)

/-! ## Derived notions used in the claim statements -/

/-- The credential state after a successful `authenticate` whose
response body parsed to the dict `fs`: `self.token =
response.get("token")`, `self.session_id = response.get("sessionID")`. -/
def refreshedState (st : ClientState) (fs : List (String × PyVal)) : ClientState :=
  { st with token := (lookupField fs "token").getD PyVal.none, sessionId := (lookupField fs "sessionID").getD PyVal.none }

/-- The keys of one of the snapshot's Python dicts. -/
def keysOf (m : List (String × PyVal)) : List String := m.map Prod.fst

/-- The nested `info.total_pay_amount.value` field is absent from a
parsed receipts body `.dict fs`: following the source's lookup chain
with its `{}` defaults, every intermediate level is a dict and the
final `value` key is missing (so Python's `.get("value")` yields
`None`). -/
def totalDueAbsent (fs : List (String × PyVal)) : Bool :=
  match (lookupField fs "info").getD (.dict []) with
  | .dict infoFs =>
    match (lookupField infoFs "total_pay_amount").getD (.dict []) with
    | .dict tpaFs =>
      match lookupField tpaFs "value" with
      | Option.none => true
      | some _ => false
    | _ => false
  | _ => false

/-- The stringified `ID` of one element of a meters list, when its
extraction succeeds. -/
def meterIdOf (m : PyVal) : Option String :=
  match pySubscript m "ID" with
  | .ok mid => some (pyStr mid)
  | .error _ => Option.none

/-- The meter identifiers extractable from a fetched meters response:
the stringified `ID` fields of the dicts in the response's `meters`
list.  Every key the coordinator records in the meters snapshot comes
from here. -/
def meterIdsOf (resp : Option PyVal) : List String :=
  match resp with
  | Option.none => []
  | some mv =>
    match pySubscript mv "meters" with
    | .error _ => []
    | .ok msv =>
      match pyIter msv with
      | .error _ => []
      | .ok lst => lst.filterMap meterIdOf

/-- The response oracle never answers 401. -/
def No401 (o : Nat → HttpResponse) : Prop :=
  ∀ i b, o i ≠ .resp 401 b

/-- The call to `_make_request` completes for some amount of fuel
(fuel is the modelling bound on the `401 → authenticate →
_make_request` mutual recursion; a call that is `outOfFuel` for every
fuel corresponds to a non-terminating execution of the source). -/
def MakeRequestTerminates (o : Nat → HttpResponse) (method endpoint : String)
    (headers : Headers) (payload : Option PyVal) (env : Env) : Prop :=
  ∃ fuel r, makeRequest o fuel method endpoint headers payload env = .done r

/-! ## Concrete instances used by witnesses and counterexamples -/

/-- A fresh client state: no token, no session. -/
def st0 : ClientState := { username := "u", password := "p", token := PyVal.none, sessionId := PyVal.none }

/-- The initial environment of a call. -/
def env0 : Env := { st := st0, idx := 0, sleeps := [], raised := [] }

/-- A server that always answers 500. -/
def oAll500 : Nat → HttpResponse := fun _ => .resp 500 Option.none

/-- A server that always answers 503 — a 500-class (5xx) status that is
not exactly 500, so it falls into the engine's final `else` branch. -/
def oAll503 : Nat → HttpResponse := fun _ => .resp 503 Option.none

/-- A server that always answers 401 (also on the authentication
endpoint). -/
def oAll401 : Nat → HttpResponse := fun _ => .resp 401 Option.none

/-- A server where every request raises a transport error. -/
def oExn : Nat → HttpResponse := fun _ => .exn

/-- A successful authentication body. -/
def authOkBody : PyVal := .dict [("token", .str "t"), ("sessionID", .str "s")]

/-- A successful payload body for the original request. -/
def okBody : PyVal := .dict [("ok", .bool true)]

/-- Server trace for the retry-budget counterexample: 401, successful
re-authentication, four 500s, then a 200 that a budget-preserving
engine would reach. -/
def oC2 : Nat → HttpResponse := fun i =>
  (([HttpResponse.resp 401 Option.none,
     HttpResponse.resp 200 (some authOkBody),
     HttpResponse.resp 500 Option.none,
     HttpResponse.resp 500 Option.none,
     HttpResponse.resp 500 Option.none,
     HttpResponse.resp 500 Option.none,
     HttpResponse.resp 200 (some okBody)] : List HttpResponse).getD i HttpResponse.exn)

/-- Server trace for the happy 401 path: 401, successful
re-authentication, 200. -/
def oC2ok : Nat → HttpResponse := fun i =>
  (([HttpResponse.resp 401 Option.none,
     HttpResponse.resp 200 (some authOkBody),
     HttpResponse.resp 200 (some okBody)] : List HttpResponse).getD i HttpResponse.exn)

/-- Server trace for the authenticate-state counterexample: the login
POST is answered 401, the nested re-authentication succeeds with a new
token/session, and the retried login then fails with a transport
error, so the outer `authenticate` reports failure. -/
def oC7 : Nat → HttpResponse := fun i =>
  (([HttpResponse.resp 401 Option.none,
     HttpResponse.resp 200 (some (.dict [("token", .str "t2"), ("sessionID", .str "s2")]))] :
    List HttpResponse).getD i HttpResponse.exn)

/-- A server that always answers 400 with an embedded error message. -/
def o400boom : Nat → HttpResponse := fun _ =>
  .resp 400 (some (.dict [("message", .str "boom")]))

/-- A server that always answers 400 with an unparsable body. -/
def o400garbled : Nat → HttpResponse := fun _ => .resp 400 Option.none

/-- Fetchers for the spec §8 example scenario. -/
def fsExample : Fetchers :=
  { receiptsOf := fun _ aid _ =>
      if aid = "1" then
        some (.dict [("info", .dict [("total_pay_amount", .dict [("value", .int 123)])])])
      else Option.none,
    metersOf := fun aid _ =>
      if aid = "1" then
        some (.dict [("meters", .list
          [.dict [("ID", .int 9), ("values", .list [.dict [("value", .int 42)]])]])])
      else Option.none }

/-- Fetchers where every fetch fails (returns `None`). -/
def fsAllFail : Fetchers :=
  { receiptsOf := fun _ _ _ => Option.none, metersOf := fun _ _ => Option.none }

/-- Fetchers where account 2's meter list contains a meter whose
`values` field is an empty list. -/
def fsBadMeter : Fetchers :=
  { receiptsOf := fun _ _ _ => Option.none,
    metersOf := fun aid _ =>
      if aid = "2" then
        some (.dict [("meters", .list [.dict [("ID", .int 9), ("values", .list [])]])])
      else Option.none }

/-- A published snapshot with data, used to observe that failed cycles
leave it unchanged. -/
def publishedBefore : Snapshot := { accounts := [("1", .int 7)], meters := [("9", .int 42)] }

/-- Service-call data with an empty `meter_readings` list. -/
def dataEmptyReadings : PyVal :=
  .dict [("entity_id", .str "sensor.kvado_account"), ("meter_readings", .list [])]

/-! ## Unfolding and step lemmas for the request engine -/

theorem mrLoop_zero (o : Nat → HttpResponse) (attempt backoff : Nat) (m e : String)
    (hs : Headers) (p : Option PyVal) (env : Env) :
    mrLoop o 0 attempt backoff m e hs p env =
      if MAX_RETRIES ≤ attempt then .done (Option.none, env) else .outOfFuel := rfl

theorem mrLoop_succ (o : Nat → HttpResponse) (f attempt backoff : Nat) (m e : String)
    (hs : Headers) (p : Option PyVal) (env : Env) :
    mrLoop o (f + 1) attempt backoff m e hs p env =
      if MAX_RETRIES ≤ attempt then
        .done (Option.none, env)
      else
        match o env.idx with
        | .exn => .done (Option.none, { env with idx := env.idx + 1 })
        | .resp status body =>
          if status = 200 then
            .done (body, { env with idx := env.idx + 1 })
          else if status = 400 then
            .done (Option.none,
              { env with idx := env.idx + 1, raised := env.raised ++ [error400Message body] })
          else if status = 401 then
            match mrLoop o f 0 INITIAL_BACKOFF "POST" AUTH_ENDPOINT defaultHeaders
                (some (authPayload env.st)) { env with idx := env.idx + 1 } with
            | .outOfFuel => .outOfFuel
            | .done (resp, env2) =>
              match authProcess resp env2.st with
              | .error _ => .done (Option.none, env2)
              | .ok (false, st2) => .done (Option.none, { env2 with st := st2 })
              | .ok (true, st2) =>
                mrLoop o f (attempt + 1) backoff m e
                  (setHeader hs "Session-Id" st2.sessionId) p { env2 with st := st2 }
          else if status = 500 then
            mrLoop o f (attempt + 1) (backoff * BACKOFF_MULTIPLIER) m e hs p
              { env with idx := env.idx + 1, sleeps := env.sleeps ++ [backoff] }
          else
            .done (Option.none, { env with idx := env.idx + 1 }) := rfl


theorem mrLoop_exhaust {o : Nat → HttpResponse} {fuel attempt backoff : Nat} {m e : String}
    {hs : Headers} {p : Option PyVal} {env : Env} (h : MAX_RETRIES ≤ attempt) :
    mrLoop o fuel attempt backoff m e hs p env = .done (Option.none, env) := by
  cases fuel with
  | zero => rw [mrLoop_zero, if_pos h]
  | succ f => rw [mrLoop_succ, if_pos h]

theorem mrLoop_500 {o : Nat → HttpResponse} {f attempt backoff : Nat} {m e : String}
    {hs : Headers} {p : Option PyVal} {env : Env} {b : Option PyVal}
    (ha : attempt < MAX_RETRIES) (h : o env.idx = .resp 500 b) :
    mrLoop o (f + 1) attempt backoff m e hs p env =
      mrLoop o f (attempt + 1) (backoff * BACKOFF_MULTIPLIER) m e hs p
        { env with idx := env.idx + 1, sleeps := env.sleeps ++ [backoff] } := by
  rw [mrLoop_succ, if_neg (by omega), h]
  rfl

theorem mrLoop_200 {o : Nat → HttpResponse} {f attempt backoff : Nat} {m e : String}
    {hs : Headers} {p : Option PyVal} {env : Env} {b : Option PyVal}
    (ha : attempt < MAX_RETRIES) (h : o env.idx = .resp 200 b) :
    mrLoop o (f + 1) attempt backoff m e hs p env =
      .done (b, { env with idx := env.idx + 1 }) := by
  rw [mrLoop_succ, if_neg (by omega), h]
  rfl

theorem mrLoop_400 {o : Nat → HttpResponse} {f attempt backoff : Nat} {m e : String}
    {hs : Headers} {p : Option PyVal} {env : Env} {b : Option PyVal}
    (ha : attempt < MAX_RETRIES) (h : o env.idx = .resp 400 b) :
    mrLoop o (f + 1) attempt backoff m e hs p env =
      .done (Option.none,
        { env with idx := env.idx + 1, raised := env.raised ++ [error400Message b] }) := by
  rw [mrLoop_succ, if_neg (by omega), h]
  rfl

theorem mrLoop_exn {o : Nat → HttpResponse} {f attempt backoff : Nat} {m e : String}
    {hs : Headers} {p : Option PyVal} {env : Env}
    (ha : attempt < MAX_RETRIES) (h : o env.idx = .exn) :
    mrLoop o (f + 1) attempt backoff m e hs p env =
      .done (Option.none, { env with idx := env.idx + 1 }) := by
  rw [mrLoop_succ, if_neg (by omega), h]

theorem mrLoop_other {o : Nat → HttpResponse} {f attempt backoff : Nat} {m e : String}
    {hs : Headers} {p : Option PyVal} {env : Env} {status : Nat} {body : Option PyVal}
    (ha : attempt < MAX_RETRIES) (h : o env.idx = .resp status body)
    (h200 : status ≠ 200) (h400 : status ≠ 400) (h401 : status ≠ 401) (h500 : status ≠ 500) :
    mrLoop o (f + 1) attempt backoff m e hs p env =
      .done (Option.none, { env with idx := env.idx + 1 }) := by
  rw [mrLoop_succ, if_neg (by omega), h]
  simp only [if_neg h200, if_neg h400, if_neg h401, if_neg h500]

theorem authenticate_succ (o : Nat → HttpResponse) (f : Nat) (env : Env) :
    authenticate o (f + 1) env =
      match mrLoop o f 0 INITIAL_BACKOFF "POST" AUTH_ENDPOINT defaultHeaders
          (some (authPayload env.st)) env with
      | .outOfFuel => .outOfFuel
      | .done (resp, env2) =>
        match authProcess resp env2.st with
        | .error e => .done (.error e, env2)
        | .ok (b, st2) => .done (.ok b, { env2 with st := st2 }) := rfl

theorem mrLoop_401 {o : Nat → HttpResponse} {f attempt backoff : Nat} {m e : String}
    {hs : Headers} {p : Option PyVal} {env : Env} {b : Option PyVal}
    (ha : attempt < MAX_RETRIES) (h : o env.idx = .resp 401 b) :
    mrLoop o (f + 1) attempt backoff m e hs p env =
      match authenticate o (f + 1) { env with idx := env.idx + 1 } with
      | .outOfFuel => .outOfFuel
      | .done (.error _, env2) => .done (Option.none, env2)
      | .done (.ok false, env2) => .done (Option.none, env2)
      | .done (.ok true, env2) =>
        mrLoop o f (attempt + 1) backoff m e
          (setHeader hs "Session-Id" env2.st.sessionId) p env2 := by
  rw [mrLoop_succ, if_neg (by omega), h, authenticate_succ]
  cases hmr : mrLoop o f 0 INITIAL_BACKOFF "POST" AUTH_ENDPOINT defaultHeaders
      (some (authPayload env.st)) { env with idx := env.idx + 1 } with
  | outOfFuel => rfl
  | done r =>
    obtain ⟨resp, env2⟩ := r
    cases hap : authProcess resp env2.st with
    | error e =>
      simp only [hap]
      rfl
    | ok bs =>
      obtain ⟨bb, st2⟩ := bs
      simp only [hap]
      cases bb <;> rfl


theorem authProcess_dict {fs : List (String × PyVal)} {st : ClientState} (hfs : fs ≠ []) :
    authProcess (some (.dict fs)) st = .ok (true, refreshedState st fs) := by
  simp [authProcess, PyVal.truthy, pyGet, refreshedState, hfs]

theorem mrLoop_401_ok {o : Nat → HttpResponse} {f attempt backoff : Nat} {m e : String}
    {hs : Headers} {p : Option PyVal} {env : Env} {b : Option PyVal}
    {fs : List (String × PyVal)}
    (ha : attempt < MAX_RETRIES) (h : o env.idx = .resp 401 b)
    (h1 : o (env.idx + 1) = .resp 200 (some (.dict fs))) (hfs : fs ≠ []) :
    mrLoop o ((f + 1) + 1) attempt backoff m e hs p env =
      mrLoop o (f + 1) (attempt + 1) backoff m e
        (setHeader hs "Session-Id" ((lookupField fs "sessionID").getD PyVal.none)) p
        { env with idx := env.idx + 2, st := refreshedState env.st fs } := by
  rw [mrLoop_401 ha h, authenticate_succ,
      mrLoop_200 (by norm_num [MAX_RETRIES]) h1]
  simp only [authProcess_dict hfs]
  rfl

/-- Claim C1, counterexample: the claim as stated covers every sequence
of five consecutive HTTP 500-class (5xx) responses, but the engine
retries only on status exactly 500 (api.py line 91); every other 5xx
status falls into the final `else` branch (api.py lines 95-97) and the
call returns `None` at once.  On a server answering 503 to everything —
five consecutive 500-class responses — the call consumes exactly one
response (`idx = 1`) and performs no back-off sleep (`sleeps`
unchanged, empty), so the claimed sleeps 4, 8, 16, 32 between five
attempts and the subsequent retry exhaustion never occur, refuting the
claim as stated. -/
theorem claimC1_counterexample :
    makeRequest oAll503 5 "GET" ACCOUNTS_ENDPOINT defaultHeaders Option.none env0 =
      .done (Option.none, { env0 with idx := 1 }) := rfl

/-- Claim C1, amended: for every call to the request operation that
receives five consecutive responses with status exactly 500, the engine
sleeps with exponential backoff of 4, 8, 16, 32 time units between the
five attempts (starting at 4 and doubling each attempt; the source also
performs one final sleep of 64 after the fifth failed attempt) and then
reports a retry-exhaustion failure (returns `None`); whereas a response
with any other 500-class status (5xx with status ≠ 500, e.g. 503)
aborts the call immediately on that response — one response consumed,
no sleep, no retry, generic `None` failure. -/
theorem claimC1
    {o₁ : Nat → HttpResponse} (fuel₁ : Nat) (m₁ e₁ : String)
    (hs₁ : Headers) (p₁ : Option PyVal) (env₁ : Env)
    (h500 : ∀ i, i < MAX_RETRIES → ∃ b, o₁ (env₁.idx + i) = HttpResponse.resp 500 b)
    {o₂ : Nat → HttpResponse} (fuel₂ : Nat) (m₂ e₂ : String)
    (hs₂ : Headers) (p₂ : Option PyVal) (env₂ : Env)
    {status : Nat} {b₂ : Option PyVal}
    (hresp : o₂ env₂.idx = HttpResponse.resp status b₂)
    (h5lo : 500 ≤ status) (h5hi : status ≤ 599) (hne : status ≠ 500) :
    makeRequest o₁ (fuel₁ + 5) m₁ e₁ hs₁ p₁ env₁ =
      .done (Option.none,
        { env₁ with idx := env₁.idx + 5, sleeps := env₁.sleeps ++ [4, 8, 16, 32, 64] }) ∧
    makeRequest o₂ (fuel₂ + 1) m₂ e₂ hs₂ p₂ env₂ =
      .done (Option.none, { env₂ with idx := env₂.idx + 1 }) := by
  constructor
  · obtain ⟨st, idx, sleeps, raised⟩ := env₁
    obtain ⟨b0, h0⟩ := h500 0 (by norm_num [MAX_RETRIES])
    obtain ⟨b1, h1⟩ := h500 1 (by norm_num [MAX_RETRIES])
    obtain ⟨b2, h2⟩ := h500 2 (by norm_num [MAX_RETRIES])
    obtain ⟨b3, h3⟩ := h500 3 (by norm_num [MAX_RETRIES])
    obtain ⟨b4, h4⟩ := h500 4 (by norm_num [MAX_RETRIES])
    simp only [Nat.add_zero] at h0
    unfold makeRequest
    rw [show fuel₁ + 5 = (fuel₁ + 4) + 1 from rfl,
        mrLoop_500 (by norm_num [MAX_RETRIES]) h0]
    rw [show fuel₁ + 4 = (fuel₁ + 3) + 1 from rfl,
        mrLoop_500 (by norm_num [MAX_RETRIES]) h1]
    rw [show fuel₁ + 3 = (fuel₁ + 2) + 1 from rfl,
        mrLoop_500 (by norm_num [MAX_RETRIES]) h2]
    rw [show fuel₁ + 2 = (fuel₁ + 1) + 1 from rfl,
        mrLoop_500 (by norm_num [MAX_RETRIES]) h3]
    rw [mrLoop_500 (by norm_num [MAX_RETRIES]) h4]
    rw [mrLoop_exhaust (by norm_num [MAX_RETRIES])]
    norm_num [INITIAL_BACKOFF, BACKOFF_MULTIPLIER, List.append_assoc]
  · unfold makeRequest
    exact mrLoop_other (by norm_num [MAX_RETRIES]) hresp
      (by omega) (by omega) (by omega) (by omega)

theorem claimC1_witness :
    (makeRequest oAll500 5 "GET" ACCOUNTS_ENDPOINT defaultHeaders Option.none env0 =
      .done (Option.none, { env0 with idx := 5, sleeps := [4, 8, 16, 32, 64] })) ∧
    (makeRequest oAll503 1 "GET" ACCOUNTS_ENDPOINT defaultHeaders Option.none env0 =
      .done (Option.none, { env0 with idx := 1 })) :=
  claimC1 0 "GET" ACCOUNTS_ENDPOINT defaultHeaders Option.none env0
    (fun _ _ => ⟨Option.none, rfl⟩)
    0 "GET" ACCOUNTS_ENDPOINT defaultHeaders Option.none env0
    rfl (by norm_num) (by norm_num) (by norm_num)

/-- Claim C6, code-bug evidence: evaluating the request engine at the
failing input.  With a 400 response whose body carries the message
`boom`, the call aborts after exactly one request (`idx = 1`, no retry)
and the verbatim message is computed and raised — but the
`raise HomeAssistantError` at api.py line 80 sits inside the same `try`
whose blanket `except Exception` (line 98) catches it, so the caller
receives the generic `None` failure and the message is only logged
(recorded here in `raised`).  With an unparsable body the generic
message is used.  The claim's "surfaces the error message verbatim to
the caller" is the intent; the code swallows its own exception. -/
theorem claimC6 :
    makeRequest o400boom 3 "GET" ACCOUNTS_ENDPOINT defaultHeaders Option.none env0 =
      .done (Option.none, { env0 with idx := 1, raised := [.str "boom"] }) ∧
    makeRequest o400garbled 3 "GET" ACCOUNTS_ENDPOINT defaultHeaders Option.none env0 =
      .done (Option.none,
        { env0 with idx := 1, raised := [.str "API returned status 400 with no readable error message"] }) :=
  ⟨rfl, rfl⟩

/-- Claim C2, counterexample: the same server trace — a 401, a
successful re-authentication, four 500s, then a 200 — is given to the
source engine and to the engine that follows the spec's words (the 401
retry does not consume a retry-budget slot).  The source engine exhausts
its 5-attempt budget and returns `None` after consuming six responses,
while the spec-words engine reaches the final 200 and succeeds.  Hence
the 401-triggered retry does consume a slot of the retry budget,
refuting the claim as stated. -/
theorem claimC2_counterexample :
    makeRequest oC2 10 "GET" ACCOUNTS_ENDPOINT defaultHeaders Option.none env0 =
      .done (Option.none, { st := refreshedState st0 [("token", .str "t"), ("sessionID", .str "s")], idx := 6, sleeps := [4, 8, 16, 32], raised := [] }) ∧
    specMakeRequest oC2 10 "GET" ACCOUNTS_ENDPOINT defaultHeaders Option.none env0 =
      .done (some okBody, { st := refreshedState st0 [("token", .str "t"), ("sessionID", .str "s")], idx := 7, sleeps := [4, 8, 16, 32], raised := [] }) :=
  ⟨rfl, rfl⟩


/-- Claim C2, amended: a single 401 response followed by a successful
re-authentication and a 200 response yields the original request's
successful result immediately (no back-off sleep), but the
401-triggered re-authentication retry consumes a slot of the 5-attempt
retry budget: after a 401 with successful re-authentication, four
500-class responses already exhaust the budget and the call fails
without consuming a further response. -/
theorem claimC2
    {o₁ : Nat → HttpResponse} (fuel₁ : Nat) (m₁ e₁ : String) (hs₁ : Headers)
    (p₁ : Option PyVal) (env₁ : Env) {fs : List (String × PyVal)} {v : PyVal}
    {b₁ : Option PyVal}
    (h0 : o₁ env₁.idx = .resp 401 b₁)
    (h1 : o₁ (env₁.idx + 1) = .resp 200 (some (.dict fs)))
    (hfs : fs ≠ [])
    (h2 : o₁ (env₁.idx + 2) = .resp 200 (some v))
    {o₂ : Nat → HttpResponse} (fuel₂ : Nat) (m₂ e₂ : String) (hs₂ : Headers)
    (p₂ : Option PyVal) (env₂ : Env) {gs : List (String × PyVal)} {b₂ : Option PyVal}
    (g0 : o₂ env₂.idx = .resp 401 b₂)
    (g1 : o₂ (env₂.idx + 1) = .resp 200 (some (.dict gs)))
    (hgs : gs ≠ [])
    (g2 : ∀ i, 2 ≤ i → i < 6 → ∃ b, o₂ (env₂.idx + i) = .resp 500 b) :
    makeRequest o₁ (fuel₁ + 3) m₁ e₁ hs₁ p₁ env₁ =
      .done (some v, { env₁ with idx := env₁.idx + 3, st := refreshedState env₁.st fs }) ∧
    makeRequest o₂ (fuel₂ + 6) m₂ e₂ hs₂ p₂ env₂ =
      .done (Option.none, { env₂ with idx := env₂.idx + 6, sleeps := env₂.sleeps ++ [4, 8, 16, 32], st := refreshedState env₂.st gs }) := by
  constructor
  · unfold makeRequest
    rw [show fuel₁ + 3 = ((fuel₁ + 1) + 1) + 1 from rfl,
        mrLoop_401_ok (by norm_num [MAX_RETRIES]) h0 h1 hfs]
    rw [mrLoop_200 (by norm_num [MAX_RETRIES]) h2]
  · obtain ⟨c2, k2⟩ := g2 2 (by norm_num) (by norm_num)
    obtain ⟨c3, k3⟩ := g2 3 (by norm_num) (by norm_num)
    obtain ⟨c4, k4⟩ := g2 4 (by norm_num) (by norm_num)
    obtain ⟨c5, k5⟩ := g2 5 (by norm_num) (by norm_num)
    obtain ⟨st, idx, sleeps, raised⟩ := env₂
    simp only [] at k2 k3 k4 k5 g0 g1
    unfold makeRequest
    rw [show fuel₂ + 6 = ((fuel₂ + 4) + 1) + 1 from rfl,
        mrLoop_401_ok (by norm_num [MAX_RETRIES]) g0 g1 hgs]
    rw [mrLoop_500 (by norm_num [MAX_RETRIES]) k2]
    rw [show fuel₂ + 4 = (fuel₂ + 3) + 1 from rfl,
        mrLoop_500 (by norm_num [MAX_RETRIES]) k3]
    rw [show fuel₂ + 3 = (fuel₂ + 2) + 1 from rfl,
        mrLoop_500 (by norm_num [MAX_RETRIES]) k4]
    rw [show fuel₂ + 2 = (fuel₂ + 1) + 1 from rfl,
        mrLoop_500 (by norm_num [MAX_RETRIES]) k5]
    rw [mrLoop_exhaust (by norm_num [MAX_RETRIES])]
    norm_num [INITIAL_BACKOFF, BACKOFF_MULTIPLIER, List.append_assoc]

theorem claimC2_witness :
    makeRequest oC2ok 3 "GET" ACCOUNTS_ENDPOINT defaultHeaders Option.none env0 =
      .done (some okBody, { env0 with idx := 3, st := refreshedState st0 [("token", .str "t"), ("sessionID", .str "s")] }) ∧
    makeRequest oC2 6 "GET" ACCOUNTS_ENDPOINT defaultHeaders Option.none env0 =
      .done (Option.none, { env0 with idx := 6, sleeps := [4, 8, 16, 32], st := refreshedState st0 [("token", .str "t"), ("sessionID", .str "s")] }) :=
  claimC2 0 "GET" ACCOUNTS_ENDPOINT defaultHeaders Option.none env0
    rfl rfl (by simp) rfl
    0 "GET" ACCOUNTS_ENDPOINT defaultHeaders Option.none env0
    rfl rfl (by simp)
    (fun i h2 h6 => ⟨Option.none, by interval_cases i <;> rfl⟩)



/-- With an oracle free of 401 responses, the request loop never
touches the credential state. -/
theorem mrLoop_st_no401 {o : Nat → HttpResponse} (h401 : No401 o) :
    ∀ fuel attempt backoff m e hs p env r env',
      mrLoop o fuel attempt backoff m e hs p env = .done (r, env') → env'.st = env.st := by
  intro fuel
  induction fuel with
  | zero =>
    intro attempt backoff m e hs p env r env' h
    rw [mrLoop_zero] at h
    split at h
    · cases h; rfl
    · cases h
  | succ f IH =>
    intro attempt backoff m e hs p env r env' h
    by_cases ha : MAX_RETRIES ≤ attempt
    · rw [mrLoop_exhaust ha] at h
      cases h; rfl
    · cases hr : o env.idx with
      | exn =>
        rw [mrLoop_exn (by omega) hr] at h
        cases h; rfl
      | resp status body =>
        by_cases h200 : status = 200
        · subst h200
          rw [mrLoop_200 (by omega) hr] at h
          cases h; rfl
        · by_cases h400 : status = 400
          · subst h400
            rw [mrLoop_400 (by omega) hr] at h
            cases h; rfl
          · by_cases h401s : status = 401
            · subst h401s
              exact absurd hr (h401 env.idx body)
            · by_cases h500 : status = 500
              · subst h500
                rw [mrLoop_500 (by omega) hr] at h
                have := IH _ _ _ _ _ _ _ _ _ h
                exact this
              · rw [mrLoop_other (by omega) hr h200 h400 h401s h500] at h
                cases h; rfl

/-- With an oracle free of 401 responses, the loop completes whenever
the fuel covers the remaining attempts. -/
theorem mrLoop_no401_dom {o : Nat → HttpResponse} (h401 : No401 o) :
    ∀ fuel attempt backoff m e hs p env, MAX_RETRIES - attempt ≤ fuel →
      ∃ r, mrLoop o fuel attempt backoff m e hs p env = .done r := by
  intro fuel
  induction fuel with
  | zero =>
    intro attempt backoff m e hs p env hle
    exact ⟨_, mrLoop_exhaust (by omega)⟩
  | succ f IH =>
    intro attempt backoff m e hs p env hle
    by_cases ha : MAX_RETRIES ≤ attempt
    · exact ⟨_, mrLoop_exhaust ha⟩
    · cases hr : o env.idx with
      | exn => exact ⟨_, mrLoop_exn (by omega) hr⟩
      | resp status body =>
        by_cases h200 : status = 200
        · subst h200; exact ⟨_, mrLoop_200 (by omega) hr⟩
        · by_cases h400 : status = 400
          · subst h400; exact ⟨_, mrLoop_400 (by omega) hr⟩
          · by_cases h401s : status = 401
            · subst h401s; exact absurd hr (h401 env.idx body)
            · by_cases h500 : status = 500
              · subst h500
                obtain ⟨r, hrec⟩ := IH (attempt + 1)
                  (backoff * BACKOFF_MULTIPLIER) m e hs p
                  { env with idx := env.idx + 1, sleeps := env.sleeps ++ [backoff] }
                  (by omega)
                exact ⟨r, by rw [mrLoop_500 (by omega) hr]; exact hrec⟩
              · exact ⟨_, mrLoop_other (by omega) hr h200 h400 h401s h500⟩

/-- With an oracle free of 401 responses, one call consumes at most
`MAX_RETRIES - attempt` further responses. -/
theorem mrLoop_no401_idx {o : Nat → HttpResponse} (h401 : No401 o) :
    ∀ fuel attempt backoff m e hs p env r env',
      mrLoop o fuel attempt backoff m e hs p env = .done (r, env') →
      env'.idx ≤ env.idx + (MAX_RETRIES - attempt) := by
  intro fuel
  induction fuel with
  | zero =>
    intro attempt backoff m e hs p env r env' h
    rw [mrLoop_zero] at h
    split at h
    · cases h; omega
    · cases h
  | succ f IH =>
    intro attempt backoff m e hs p env r env' h
    by_cases ha : MAX_RETRIES ≤ attempt
    · rw [mrLoop_exhaust ha] at h
      cases h; omega
    · cases hr : o env.idx with
      | exn =>
        rw [mrLoop_exn (by omega) hr] at h
        cases h; simp; omega
      | resp status body =>
        by_cases h200 : status = 200
        · subst h200
          rw [mrLoop_200 (by omega) hr] at h
          cases h; simp; omega
        · by_cases h400 : status = 400
          · subst h400
            rw [mrLoop_400 (by omega) hr] at h
            cases h; simp; omega
          · by_cases h401s : status = 401
            · subst h401s
              exact absurd hr (h401 env.idx body)
            · by_cases h500 : status = 500
              · subst h500
                rw [mrLoop_500 (by omega) hr] at h
                have := IH _ _ _ _ _ _ _ _ _ h
                simp at this
                omega
              · rw [mrLoop_other (by omega) hr h200 h400 h401s h500] at h
                cases h; simp; omega

/-- On the constant-401 server, every amount of fuel is exhausted:
each 401 re-enters the engine through `authenticate`, which is
answered 401 again. -/
theorem mrLoop_all401 :
    ∀ fuel attempt backoff m e hs p env, attempt < MAX_RETRIES →
      mrLoop oAll401 fuel attempt backoff m e hs p env = .outOfFuel := by
  intro fuel
  induction fuel with
  | zero =>
    intro attempt backoff m e hs p env ha
    rw [mrLoop_zero, if_neg (by omega)]
  | succ f IH =>
    intro attempt backoff m e hs p env ha
    rw [mrLoop_401 (by omega) (rfl : oAll401 env.idx = .resp 401 Option.none),
        authenticate_succ,
        IH 0 INITIAL_BACKOFF "POST" AUTH_ENDPOINT defaultHeaders _ _
          (by norm_num [MAX_RETRIES])]


/-- Claim C7, counterexample: a failing call to `authenticate` that does
NOT leave the held token/session untouched: the login POST is answered
401, the nested re-authentication succeeds (overwriting token and
session id), and the retried login fails with a transport error; the
call reports failure (`False`) but the credentials have changed. -/
theorem claimC7_counterexample :
    authenticate oC7 3 env0 =
      .done (.ok false, { st := refreshedState st0 [("token", .str "t2"), ("sessionID", .str "s2")], idx := 3, sleeps := [], raised := [] }) ∧
    refreshedState st0 [("token", .str "t2"), ("sessionID", .str "s2")] ≠ st0 :=
  ⟨rfl, fun h => PyVal.noConfusion (congrArg ClientState.token h)⟩

/-- Claim C7, amended: when the underlying login request encounters no
401 response (hence no nested re-authentication) and fails — the
engine reports an error (`None`) or the response is falsy/empty — the
call reports failure and the held credential state is exactly the one
before the call.  (A 401-triggered nested re-authentication can update
the credentials even when the call fails; see the counterexample.) -/
theorem claimC7 {o : Nat → HttpResponse} (fuel : Nat) (env : Env)
    {resp : Option PyVal} {env1 : Env}
    (h401 : No401 o)
    (hpost : mrLoop o fuel 0 INITIAL_BACKOFF "POST" AUTH_ENDPOINT defaultHeaders
        (some (authPayload env.st)) env = .done (resp, env1))
    (hfail : resp = Option.none ∨ ∃ v, resp = some v ∧ v.truthy = false) :
    authenticate o (fuel + 1) env = .done (.ok false, env1) ∧ env1.st = env.st := by
  have hst := mrLoop_st_no401 h401 _ _ _ _ _ _ _ _ _ _ hpost
  refine ⟨?_, hst⟩
  rw [authenticate_succ, hpost]
  rcases hfail with h | ⟨v, hv, htr⟩
  · subst h; rfl
  · subst hv
    simp only [authProcess, htr]
    rfl

theorem claimC7_witness :
    (authenticate oExn 2 env0 = .done (.ok false, { env0 with idx := 1 }) ∧
      ({ env0 with idx := 1 } : Env).st = env0.st) :=
  claimC7 1 env0 (fun _ _b h => HttpResponse.noConfusion h) rfl (Or.inl rfl)

/-- Claim C10, counterexample: on a server that answers every request —
including the authentication endpoint — with 401, a call to the
request operation does not terminate: the 401 handler re-enters the
engine through `authenticate`, whose own request is answered 401
again, with no bound on the mutual recursion (every fuel is
exhausted). -/
theorem claimC10_counterexample :
    ¬ MakeRequestTerminates oAll401 "GET" ACCOUNTS_ENDPOINT defaultHeaders Option.none env0 := by
  intro ht
  obtain ⟨fuel, r, hr⟩ := ht
  unfold makeRequest at hr
  rw [mrLoop_all401 fuel 0 INITIAL_BACKOFF _ _ _ _ _ (by norm_num [MAX_RETRIES])] at hr
  exact Outcome.noConfusion hr

/-- Claim C10, amended: the retry loop runs at most `MAX_RETRIES`
iterations per activation — a completed call consumes at most
`MAX_RETRIES` responses — and the call terminates for every response
sequence that contains no 401 response; the 401 → `authenticate` →
request mutual recursion itself is unbounded (counterexample:
a constant-401 server). -/
theorem claimC10 {o : Nat → HttpResponse} (m e : String) (hs : Headers)
    (p : Option PyVal) (env : Env) (h401 : No401 o) :
    (∃ r, makeRequest o MAX_RETRIES m e hs p env = .done r) ∧
    (∀ fuel r env', makeRequest o fuel m e hs p env = .done (r, env') →
      env'.idx ≤ env.idx + MAX_RETRIES) := by
  constructor
  · exact mrLoop_no401_dom h401 MAX_RETRIES 0 INITIAL_BACKOFF m e hs p env (by omega)
  · intro fuel r env' h
    have := mrLoop_no401_idx h401 fuel 0 INITIAL_BACKOFF m e hs p env r env' h
    omega

theorem claimC10_witness :
    (∃ r, makeRequest oExn MAX_RETRIES "GET" ACCOUNTS_ENDPOINT defaultHeaders Option.none env0 = .done r) ∧
    (∀ fuel r env', makeRequest oExn fuel "GET" ACCOUNTS_ENDPOINT defaultHeaders Option.none env0 = .done (r, env') →
      env'.idx ≤ env0.idx + MAX_RETRIES) :=
  claimC10 "GET" ACCOUNTS_ENDPOINT defaultHeaders Option.none env0
    (fun _ _b h => HttpResponse.noConfusion h)



theorem keysOf_overwrite (m : List (String × PyVal)) (k : String) (v : PyVal) :
    keysOf (m.map (fun kv => if kv.1 = k then (k, v) else kv)) = keysOf m := by
  induction m with
  | nil => rfl
  | cons kv rest IH =>
    obtain ⟨k0, v0⟩ := kv
    by_cases hk : k0 = k
    · subst hk
      simpa [keysOf] using IH
    · simpa [keysOf, hk] using IH

theorem keysOf_assocSet (m : List (String × PyVal)) (k : String) (v : PyVal) :
    keysOf (assocSet m k v) =
      if m.any (fun kv => kv.1 = k) then keysOf m else keysOf m ++ [k] := by
  unfold assocSet
  by_cases hany : m.any (fun kv => kv.1 = k)
  · simp [hany, keysOf_overwrite]
  · simp [hany, keysOf]

theorem any_fst_eq_true_iff (m : List (String × PyVal)) (k : String) :
    m.any (fun kv => kv.1 = k) = true ↔ k ∈ keysOf m := by
  simp [List.any_eq_true, keysOf, List.mem_map]

theorem mem_keysOf_assocSet (m : List (String × PyVal)) (k k' : String) (v : PyVal) :
    k' ∈ keysOf (assocSet m k v) ↔ k' ∈ keysOf m ∨ k' = k := by
  rw [keysOf_assocSet]
  by_cases hany : m.any (fun kv => kv.1 = k)
  · rw [if_pos hany]
    constructor
    · exact Or.inl
    · rintro (h | rfl)
      · exact h
      · exact (any_fst_eq_true_iff m k').mp hany
  · rw [if_neg hany]
    simp

theorem lookupField_overwrite_of_any (m : List (String × PyVal)) (k : String) (v : PyVal)
    (hany : m.any (fun kv => kv.1 = k) = true) :
    lookupField (m.map (fun kv => if kv.1 = k then (k, v) else kv)) k = some v := by
  induction m with
  | nil => cases hany
  | cons kv rest IH =>
    obtain ⟨k0, v0⟩ := kv
    rw [List.map_cons]
    by_cases hk : k0 = k
    · subst hk
      rw [show (if ((k0, v0) : String × PyVal).1 = k0 then (k0, v) else (k0, v0)) = (k0, v) from if_pos rfl]
      show (if k0 = k0 then some v else lookupField (rest.map (fun kv => if kv.1 = k0 then (k0, v) else kv)) k0) = some v
      rw [if_pos rfl]
    · rw [show (if ((k0, v0) : String × PyVal).1 = k then (k, v) else (k0, v0)) = (k0, v0) from if_neg hk]
      show (if k0 = k then some v0 else lookupField (rest.map (fun kv => if kv.1 = k then (k, v) else kv)) k) = some v
      rw [if_neg hk]
      apply IH
      simpa [hk] using hany

theorem lookupField_append_single (m : List (String × PyVal)) (k : String) (v : PyVal)
    (hnone : m.any (fun kv => kv.1 = k) = false) :
    lookupField (m ++ [(k, v)]) k = some v := by
  induction m with
  | nil => simp [lookupField]
  | cons kv rest IH =>
    obtain ⟨k0, v0⟩ := kv
    have h1 : (decide (k0 = k) || rest.any (fun kv => kv.1 = k)) = false := by
      simpa [List.any_cons] using hnone
    have hk : k0 ≠ k := by simpa using (Bool.or_eq_false_iff.mp h1).1
    have hr : rest.any (fun kv => kv.1 = k) = false := (Bool.or_eq_false_iff.mp h1).2
    show (if k0 = k then some v0 else lookupField (rest ++ [(k, v)]) k) = some v
    rw [if_neg hk]
    exact IH hr

theorem lookupField_assocSet_self (m : List (String × PyVal)) (k : String) (v : PyVal) :
    lookupField (assocSet m k v) k = some v := by
  unfold assocSet
  by_cases hany : m.any (fun kv => kv.1 = k)
  · rw [if_pos hany]
    exact lookupField_overwrite_of_any m k v hany
  · rw [if_neg hany]
    exact lookupField_append_single m k v (Bool.eq_false_iff.mpr hany)

theorem receiptsTotalPayAmount_absent {fs : List (String × PyVal)} (hfs : fs ≠ [])
    (habs : totalDueAbsent fs = true) :
    receiptsTotalPayAmount (some (.dict fs)) = .ok PyVal.none := by
  have hc : ((PyVal.dict fs).truthy && (PyVal.dict fs).isDict) = true := by
    simp [PyVal.truthy, PyVal.isDict, hfs]
  unfold totalDueAbsent at habs
  split at habs
  · rename_i infoFs heq1
    split at habs
    · rename_i tpaFs heq2
      split at habs
      · rename_i heq3
        simp only [receiptsTotalPayAmount, hc, if_true, pyGet, heq1, heq2, heq3]
        rfl
      · cases habs
    · cases habs
  · cases habs

theorem metersPhase_accounts {resp : Option PyVal} {snap snap' : Snapshot}
    (h : metersPhase resp snap = .ok snap') : snap'.accounts = snap.accounts := by
  cases resp with
  | none => simp only [metersPhase] at h; cases h; rfl
  | some mv =>
    by_cases ht : mv.truthy = true
    · simp only [metersPhase, ht, if_true] at h
      cases hc : pyContainsKey "meters" mv with
      | error e => simp only [hc] at h; exact Except.noConfusion h
      | ok cb =>
        cases cb with
        | false => simp only [hc] at h; cases h; rfl
        | true =>
          simp only [hc] at h
          cases hsv : pySubscript mv "meters" with
          | error e => simp only [hsv] at h; exact Except.noConfusion h
          | ok msv =>
            simp only [hsv] at h
            cases hit : pyIter msv with
            | error e => simp only [hit] at h; exact Except.noConfusion h
            | ok lst =>
              simp only [hit] at h
              cases hmf : meterFold snap.meters lst with
              | error e => simp only [hmf] at h; exact Except.noConfusion h
              | ok ms' => simp only [hmf] at h; cases h; rfl
    · simp only [metersPhase, ht, if_false] at h
      cases h; rfl

theorem runAccounts_cons (fsrc : Fetchers) (year : Nat) (sel : List String)
    (snap : Snapshot) (a : Account) (rest : List Account) :
    runAccounts fsrc year sel snap (a :: rest) =
      match accountStep fsrc year sel snap a with
      | .error e => .error e
      | .ok snap' => runAccounts fsrc year sel snap' rest := rfl

/-- Claim C3: during a refresh cycle, if the billing-receipts fetch for
a selected account fails (the client returns `None`) or the nested
`info.total_pay_amount.value` field is absent from the fetched body, a
sentinel unavailable value is recorded for that account (`"N/A"` for a
failed fetch, Python `None` for an absent field) and the cycle
continues with the remaining accounts instead of aborting — provided
the same account's meters phase raises no exception (a meters-phase
exception aborts the cycle independently of the receipts handling; see
the claim about empty meter value lists). -/
theorem claimC3 (fsrc : Fetchers) (year : Nat) (sel : List String)
    (a : Account) (rest : List Account) (snap : Snapshot)
    (hsel : toString a.ID ∈ sel)
    (hfail : fsrc.receiptsOf year (toString a.ID) (toString a.organizationID) = Option.none
      ∨ ∃ fs, fsrc.receiptsOf year (toString a.ID) (toString a.organizationID) = some (.dict fs)
          ∧ fs ≠ [] ∧ totalDueAbsent fs = true)
    (hm : ∀ s, ∃ s', metersPhase (fsrc.metersOf (toString a.ID) (toString a.organizationID)) s = .ok s') :
    ∃ v snap', (v = PyVal.str "N/A" ∨ v = PyVal.none) ∧
      runAccounts fsrc year sel snap (a :: rest) = runAccounts fsrc year sel snap' rest ∧
      lookupField snap'.accounts (toString a.ID) = some v := by
  have hv : ∃ v, (v = PyVal.str "N/A" ∨ v = PyVal.none) ∧
      receiptsTotalPayAmount (fsrc.receiptsOf year (toString a.ID) (toString a.organizationID)) = .ok v := by
    rcases hfail with h | ⟨fs, h, hfs, habs⟩
    · refine ⟨.str "N/A", Or.inl rfl, ?_⟩
      rw [h]
      rfl
    · refine ⟨PyVal.none, Or.inr rfl, ?_⟩
      rw [h]
      exact receiptsTotalPayAmount_absent hfs habs
  obtain ⟨v, hvs, hrv⟩ := hv
  obtain ⟨snap', hsnap'⟩ := hm { snap with accounts := assocSet snap.accounts (toString a.ID) v }
  have hstep : accountStep fsrc year sel snap a = .ok snap' := by
    unfold accountStep
    rw [if_pos hsel]
    simp only [hrv]
    exact hsnap'
  refine ⟨v, snap', hvs, ?_, ?_⟩
  · rw [runAccounts_cons]
    simp only [hstep]
  · rw [metersPhase_accounts hsnap']
    exact lookupField_assocSet_self snap.accounts (toString a.ID) v

theorem claimC3_witness :
    ∃ v snap', (v = PyVal.str "N/A" ∨ v = PyVal.none) ∧
      runAccounts fsAllFail 2026 ["1"] { accounts := [], meters := [] } [⟨1, 5⟩] =
        runAccounts fsAllFail 2026 ["1"] snap' [] ∧
      lookupField snap'.accounts (toString (1 : Nat)) = some v :=
  claimC3 fsAllFail 2026 ["1"] ⟨1, 5⟩ [] { accounts := [], meters := [] }
    (by decide) (Or.inl rfl) (fun s => ⟨s, rfl⟩)



theorem accountStep_ok_elim {fsrc : Fetchers} {year : Nat} {sel : List String}
    {snap : Snapshot} {a : Account} {snap' : Snapshot}
    (h : accountStep fsrc year sel snap a = .ok snap') :
    (toString a.ID ∉ sel ∧ snap' = snap) ∨
    (toString a.ID ∈ sel ∧ ∃ v, snap'.accounts = assocSet snap.accounts (toString a.ID) v ∧
      metersPhase (fsrc.metersOf (toString a.ID) (toString a.organizationID))
        { snap with accounts := assocSet snap.accounts (toString a.ID) v } = .ok snap') := by
  by_cases hsel : toString a.ID ∈ sel
  · simp only [accountStep, if_pos hsel] at h
    cases hrv : receiptsTotalPayAmount
        (fsrc.receiptsOf year (toString a.ID) (toString a.organizationID)) with
    | error e => simp only [hrv] at h; exact Except.noConfusion h
    | ok v =>
      simp only [hrv] at h
      right
      refine ⟨hsel, v, ?_, h⟩
      simpa using metersPhase_accounts h
  · simp only [accountStep, if_neg hsel] at h
    cases h
    exact Or.inl ⟨hsel, rfl⟩

theorem runAccounts_keys {fsrc : Fetchers} {year : Nat} {sel : List String} :
    ∀ (accs : List Account) (snap snap' : Snapshot),
      runAccounts fsrc year sel snap accs = .ok snap' →
      ∀ k, k ∈ keysOf snap'.accounts ↔
        (k ∈ keysOf snap.accounts ∨ ∃ a, a ∈ accs ∧ toString a.ID = k ∧ toString a.ID ∈ sel) := by
  intro accs
  induction accs with
  | nil =>
    intro snap snap' h k
    cases h
    simp
  | cons a rest IH =>
    intro snap snap' h k
    rw [runAccounts_cons] at h
    cases hstep : accountStep fsrc year sel snap a with
    | error e => simp only [hstep] at h; exact Except.noConfusion h
    | ok snap1 =>
      simp only [hstep] at h
      have hrest := IH snap1 snap' h k
      rcases accountStep_ok_elim hstep with ⟨hnot, rfl⟩ | ⟨hin, v, hacc, _⟩
      · rw [hrest]
        constructor
        · rintro (hk | ⟨b, hb, rfl, hbsel⟩)
          · exact Or.inl hk
          · exact Or.inr ⟨b, List.mem_cons_of_mem _ hb, rfl, hbsel⟩
        · rintro (hk | ⟨b, hb, rfl, hbsel⟩)
          · exact Or.inl hk
          · rcases List.mem_cons.mp hb with rfl | hb'
            · exact absurd hbsel hnot
            · exact Or.inr ⟨b, hb', rfl, hbsel⟩
      · rw [hrest]
        constructor
        · rintro (hk | ⟨b, hb, rfl, hbsel⟩)
          · rw [hacc] at hk
            rcases (mem_keysOf_assocSet _ _ _ _).mp hk with hk0 | rfl
            · exact Or.inl hk0
            · exact Or.inr ⟨a, List.mem_cons_self a rest, rfl, hin⟩
          · exact Or.inr ⟨b, List.mem_cons_of_mem _ hb, rfl, hbsel⟩
        · rintro (hk | ⟨b, hb, rfl, hbsel⟩)
          · left
            rw [hacc]
            exact (mem_keysOf_assocSet _ _ _ _).mpr (Or.inl hk)
          · rcases List.mem_cons.mp hb with rfl | hb'
            · left
              rw [hacc]
              exact (mem_keysOf_assocSet _ _ _ _).mpr (Or.inr rfl)
            · exact Or.inr ⟨b, hb', rfl, hbsel⟩

theorem meterStep_keys {ms : List (String × PyVal)} {m : PyVal} {ms1 : List (String × PyVal)}
    (h : meterStep ms m = .ok ms1) :
    ∀ k, k ∈ keysOf ms1 → k ∈ keysOf ms ∨ meterIdOf m = some k := by
  unfold meterStep at h
  cases hid : pySubscript m "ID" with
  | error e => simp only [hid] at h; exact Except.noConfusion h
  | ok mid =>
    simp only [hid] at h
    cases hv : pyGet m "values" (.list [.dict []]) with
    | error e => simp only [hv] at h; exact Except.noConfusion h
    | ok values =>
      simp only [hv] at h
      cases hf : pyIndex0 values with
      | error e => simp only [hf] at h; exact Except.noConfusion h
      | ok first =>
        simp only [hf] at h
        cases hval : pyGet first "value" (.str "N/A") with
        | error e => simp only [hval] at h; exact Except.noConfusion h
        | ok value =>
          simp only [hval] at h
          cases h
          intro k hk
          rcases (mem_keysOf_assocSet _ _ _ _).mp hk with hk0 | rfl
          · exact Or.inl hk0
          · right
            unfold meterIdOf
            rw [hid]

theorem meterFold_cons (ms : List (String × PyVal)) (m : PyVal) (rest : List PyVal) :
    meterFold ms (m :: rest) =
      match meterStep ms m with
      | .error e => .error e
      | .ok ms' => meterFold ms' rest := rfl

theorem meterFold_keys :
    ∀ (lst : List PyVal) (ms ms' : List (String × PyVal)),
      meterFold ms lst = .ok ms' →
      ∀ k, k ∈ keysOf ms' → k ∈ keysOf ms ∨ k ∈ lst.filterMap meterIdOf := by
  intro lst
  induction lst with
  | nil =>
    intro ms ms' h k hk
    cases h
    exact Or.inl hk
  | cons m rest IH =>
    intro ms ms' h k hk
    rw [meterFold_cons] at h
    cases hstep : meterStep ms m with
    | error e => simp only [hstep] at h; exact Except.noConfusion h
    | ok ms1 =>
      simp only [hstep] at h
      rcases IH ms1 ms' h k hk with hk1 | hk2
      · rcases meterStep_keys hstep k hk1 with hk0 | hid
        · exact Or.inl hk0
        · right
          exact List.mem_filterMap.mpr ⟨m, List.mem_cons_self m rest, hid⟩
      · right
        rcases List.mem_filterMap.mp hk2 with ⟨x, hx, hfx⟩
        exact List.mem_filterMap.mpr ⟨x, List.mem_cons_of_mem _ hx, hfx⟩

theorem metersPhase_meters_keys {resp : Option PyVal} {snap snap' : Snapshot}
    (h : metersPhase resp snap = .ok snap') :
    ∀ k, k ∈ keysOf snap'.meters → k ∈ keysOf snap.meters ∨ k ∈ meterIdsOf resp := by
  cases resp with
  | none => simp only [metersPhase] at h; cases h; exact fun k hk => Or.inl hk
  | some mv =>
    by_cases ht : mv.truthy = true
    · simp only [metersPhase, ht, if_true] at h
      cases hc : pyContainsKey "meters" mv with
      | error e => simp only [hc] at h; exact Except.noConfusion h
      | ok cb =>
        cases cb with
        | false => simp only [hc] at h; cases h; exact fun k hk => Or.inl hk
        | true =>
          simp only [hc] at h
          cases hsv : pySubscript mv "meters" with
          | error e => simp only [hsv] at h; exact Except.noConfusion h
          | ok msv =>
            simp only [hsv] at h
            cases hit : pyIter msv with
            | error e => simp only [hit] at h; exact Except.noConfusion h
            | ok lst =>
              simp only [hit] at h
              cases hmf : meterFold snap.meters lst with
              | error e => simp only [hmf] at h; exact Except.noConfusion h
              | ok ms' =>
                simp only [hmf] at h
                cases h
                intro k hk
                rcases meterFold_keys lst _ _ hmf k hk with hk0 | hk1
                · exact Or.inl hk0
                · right
                  simp only [meterIdsOf, hsv, hit]
                  exact hk1
    · simp only [metersPhase, ht, if_false] at h
      cases h
      exact fun k hk => Or.inl hk

theorem accountStep_meters {fsrc : Fetchers} {year : Nat} {sel : List String}
    {snap : Snapshot} {a : Account} {snap1 : Snapshot}
    (h : accountStep fsrc year sel snap a = .ok snap1) :
    ∀ k, k ∈ keysOf snap1.meters → k ∈ keysOf snap.meters ∨
      (toString a.ID ∈ sel ∧
        k ∈ meterIdsOf (fsrc.metersOf (toString a.ID) (toString a.organizationID))) := by
  rcases accountStep_ok_elim h with ⟨_, rfl⟩ | ⟨hin, v, _, hmp⟩
  · exact fun k hk => Or.inl hk
  · intro k hk
    rcases metersPhase_meters_keys hmp k hk with h1 | h2
    · exact Or.inl (by simpa using h1)
    · exact Or.inr ⟨hin, h2⟩

theorem runAccounts_meters {fsrc : Fetchers} {year : Nat} {sel : List String} :
    ∀ (accs : List Account) (snap snap' : Snapshot),
      runAccounts fsrc year sel snap accs = .ok snap' →
      ∀ k, k ∈ keysOf snap'.meters → k ∈ keysOf snap.meters ∨
        ∃ a, a ∈ accs ∧ toString a.ID ∈ sel ∧
          k ∈ meterIdsOf (fsrc.metersOf (toString a.ID) (toString a.organizationID)) := by
  intro accs
  induction accs with
  | nil =>
    intro snap snap' h k hk
    cases h
    exact Or.inl hk
  | cons a rest IH =>
    intro snap snap' h k hk
    rw [runAccounts_cons] at h
    cases hstep : accountStep fsrc year sel snap a with
    | error e => simp only [hstep] at h; exact Except.noConfusion h
    | ok snap1 =>
      simp only [hstep] at h
      rcases IH snap1 snap' h k hk with hk1 | ⟨b, hb, hbsel, hbm⟩
      · rcases accountStep_meters hstep k hk1 with hk0 | ⟨hin, hm⟩
        · exact Or.inl hk0
        · exact Or.inr ⟨a, List.mem_cons_self a rest, hin, hm⟩
      · exact Or.inr ⟨b, List.mem_cons_of_mem _ hb, hbsel, hbm⟩

/-- Claim C4: when a refresh cycle completes without an exception
(all per-account fetches succeed), the account-key set of the produced
snapshot equals exactly the selected set S whenever S is a subset of
the identifiers of the setup-time account list (no extra keys, no
missing keys); and in every completed cycle, every account key in the
snapshot is the identifier of an account in the setup-time list and
belongs to S, and every meter identifier in the snapshot is extracted
from the meters response fetched for some selected account of that
list. -/
theorem claimC4 {fsrc : Fetchers} {year : Nat} {sel : List String}
    {accs : List Account} {snap : Snapshot}
    (hok : asyncUpdateData fsrc year sel accs = .ok snap) :
    ((∀ s ∈ sel, ∃ a, a ∈ accs ∧ toString a.ID = s) →
      ∀ k, k ∈ keysOf snap.accounts ↔ k ∈ sel) ∧
    (∀ k ∈ keysOf snap.accounts, (∃ a, a ∈ accs ∧ toString a.ID = k) ∧ k ∈ sel) ∧
    (∀ k ∈ keysOf snap.meters, ∃ a, a ∈ accs ∧ toString a.ID ∈ sel ∧
      k ∈ meterIdsOf (fsrc.metersOf (toString a.ID) (toString a.organizationID))) := by
  have hkeys := runAccounts_keys accs _ _ hok
  have hmet := runAccounts_meters accs _ _ hok
  refine ⟨?_, ?_, ?_⟩
  · intro hsel k
    rw [hkeys k]
    simp only [keysOf, List.map_nil, List.not_mem_nil, false_or]
    constructor
    · rintro ⟨a, _, rfl, hin⟩
      exact hin
    · intro hk
      obtain ⟨a, ha, haid⟩ := hsel k hk
      exact ⟨a, ha, haid, haid ▸ hk⟩
  · intro k hk
    rcases (hkeys k).mp hk with h0 | ⟨a, ha, rfl, hin⟩
    · exact absurd h0 (by simp [keysOf])
    · exact ⟨⟨a, ha, rfl⟩, hin⟩
  · intro k hk
    rcases hmet k hk with h0 | h
    · exact absurd h0 (by simp [keysOf])
    · exact h

theorem claimC4_witness :
    asyncUpdateData fsExample 2026 ["1"] [⟨1, 5⟩] =
      .ok { accounts := [("1", .int 123)], meters := [("9", .int 42)] } ∧
    ((∀ s ∈ ["1"], ∃ a, a ∈ [(⟨1, 5⟩ : Account)] ∧ toString a.ID = s) →
      ∀ k, k ∈ keysOf ({ accounts := [("1", .int 123)], meters := [("9", .int 42)] } : Snapshot).accounts ↔ k ∈ ["1"]) ∧
    (∀ k ∈ keysOf ({ accounts := [("1", .int 123)], meters := [("9", .int 42)] } : Snapshot).accounts,
      (∃ a, a ∈ [(⟨1, 5⟩ : Account)] ∧ toString a.ID = k) ∧ k ∈ ["1"]) ∧
    (∀ k ∈ keysOf ({ accounts := [("1", .int 123)], meters := [("9", .int 42)] } : Snapshot).meters,
      ∃ a, a ∈ [(⟨1, 5⟩ : Account)] ∧ toString a.ID ∈ ["1"] ∧
        k ∈ meterIdsOf (fsExample.metersOf (toString a.ID) (toString a.organizationID))) :=
  ⟨rfl, @claimC4 fsExample 2026 ["1"] [⟨1, 5⟩] { accounts := [("1", .int 123)], meters := [("9", .int 42)] } rfl⟩

/-- Claim C5: every refresh cycle replaces the snapshot atomically.
The refresh step either leaves the published snapshot exactly unchanged
(when `_async_update_data` raises `UpdateFailed`) or replaces it with
the complete freshly-built snapshot, which contains a key for every
selected account of the account list — consumers never observe a
partially filled mapping, and a failed cycle leaves the previous
snapshot visible. -/
theorem claimC5 (fsrc : Fetchers) (year : Nat) (sel : List String)
    (accs : List Account) (published : Snapshot) :
    (∃ e, asyncUpdateData fsrc year sel accs = .error e ∧
      coordinatorRefresh published fsrc year sel accs = published) ∨
    (∃ snap, asyncUpdateData fsrc year sel accs = .ok snap ∧
      coordinatorRefresh published fsrc year sel accs = snap ∧
      ∀ a, a ∈ accs → toString a.ID ∈ sel → toString a.ID ∈ keysOf snap.accounts) := by
  cases hu : asyncUpdateData fsrc year sel accs with
  | error e =>
    left
    exact ⟨e, rfl, by unfold coordinatorRefresh; rw [hu]⟩
  | ok snap =>
    right
    refine ⟨snap, rfl, by unfold coordinatorRefresh; rw [hu], ?_⟩
    intro a ha hsel
    have hkeys := runAccounts_keys accs _ _ hu (toString a.ID)
    exact hkeys.mpr (Or.inr ⟨a, ha, rfl, hsel⟩)



theorem meterStep_badValues {bs : List (String × PyVal)}
    (hval : lookupField bs "values" = some (.list [])) :
    ∀ ms, ∃ e, meterStep ms (.dict bs) = .error e := by
  intro ms
  cases hid : pySubscript (.dict bs) "ID" with
  | error e => exact ⟨e, by simp only [meterStep, hid]⟩
  | ok mid =>
    have hv : pyGet (.dict bs) "values" (.list [.dict []]) = .ok (.list []) := by
      simp [pyGet, hval]
    exact ⟨.indexError, by simp only [meterStep, hid, hv]; rfl⟩

theorem meterFold_err :
    ∀ (lst : List PyVal) (x : PyVal), x ∈ lst →
      (∀ ms, ∃ e, meterStep ms x = .error e) →
      ∀ ms, ∃ e, meterFold ms lst = .error e := by
  intro lst
  induction lst with
  | nil => intro x hx; cases hx
  | cons m rest IH =>
    intro x hx herr ms
    rw [meterFold_cons]
    cases hstep : meterStep ms m with
    | error e => exact ⟨e, rfl⟩
    | ok ms1 =>
      rcases List.mem_cons.mp hx with rfl | hx'
      · obtain ⟨e, he⟩ := herr ms
        rw [hstep] at he
        exact Except.noConfusion he
      · obtain ⟨e, he⟩ := IH x hx' herr ms1
        exact ⟨e, he⟩

theorem lookupField_some_mem_keys {fs : List (String × PyVal)} {k : String} {x : PyVal}
    (h : lookupField fs k = some x) : k ∈ keysOf fs := by
  induction fs with
  | nil => cases h
  | cons kv rest IH =>
    obtain ⟨k0, v0⟩ := kv
    by_cases hk : k0 = k
    · subst hk
      exact List.mem_cons_self _ _
    · have h' : lookupField rest k = some x := by
        simpa [lookupField, hk] using h
      exact List.mem_cons_of_mem _ (IH h')

theorem metersPhase_err {gs : List (String × PyVal)} {lst : List PyVal} {x : PyVal}
    (hms : lookupField gs "meters" = some (.list lst)) (hx : x ∈ lst)
    (herr : ∀ ms, ∃ e, meterStep ms x = .error e) :
    ∀ snap, ∃ e, metersPhase (some (.dict gs)) snap = .error e := by
  intro snap
  have hne : gs ≠ [] := by
    intro hgs
    subst hgs
    simp [lookupField] at hms
  have ht : (PyVal.dict gs).truthy = true := by simp [PyVal.truthy, hne]
  have hkey : gs.any (fun kv => kv.1 = "meters") = true :=
    (any_fst_eq_true_iff _ _).mpr (lookupField_some_mem_keys hms)
  have hcont : pyContainsKey "meters" (.dict gs) = .ok true := by
    simp [pyContainsKey, hkey]
  have hsub : pySubscript (.dict gs) "meters" = .ok (.list lst) := by
    simp [pySubscript, hms]
  obtain ⟨e, he⟩ := meterFold_err lst x hx herr snap.meters
  refine ⟨e, ?_⟩
  simp only [metersPhase, ht, if_true, hcont, hsub, pyIter, he]

theorem accountStep_err {fsrc : Fetchers} {year : Nat} {sel : List String} {a : Account}
    (hsel : toString a.ID ∈ sel)
    (hmp : ∀ snap1, ∃ e, metersPhase
      (fsrc.metersOf (toString a.ID) (toString a.organizationID)) snap1 = .error e) :
    ∀ snap, ∃ e, accountStep fsrc year sel snap a = .error e := by
  intro snap
  cases hrv : receiptsTotalPayAmount
      (fsrc.receiptsOf year (toString a.ID) (toString a.organizationID)) with
  | error e => exact ⟨e, by simp only [accountStep, if_pos hsel, hrv]⟩
  | ok v =>
    obtain ⟨e, he⟩ := hmp { snap with accounts := assocSet snap.accounts (toString a.ID) v }
    exact ⟨e, by simp only [accountStep, if_pos hsel, hrv]; exact he⟩

theorem runAccounts_err {fsrc : Fetchers} {year : Nat} {sel : List String} :
    ∀ (accs : List Account) (a : Account), a ∈ accs →
      (∀ snap, ∃ e, accountStep fsrc year sel snap a = .error e) →
      ∀ snap, ∃ e, runAccounts fsrc year sel snap accs = .error e := by
  intro accs
  induction accs with
  | nil => intro a ha; cases ha
  | cons b rest IH =>
    intro a ha herr snap
    rw [runAccounts_cons]
    cases hstep : accountStep fsrc year sel snap b with
    | error e => exact ⟨e, rfl⟩
    | ok snap1 =>
      rcases List.mem_cons.mp ha with rfl | ha'
      · obtain ⟨e, he⟩ := herr snap
        rw [hstep] at he
        exact Except.noConfusion he
      · obtain ⟨e, he⟩ := IH a ha' herr snap1
        exact ⟨e, he⟩

/-- Claim C9: whenever some selected account's fetched meter list
contains a meter whose `values` field is present but equal to an empty
list, the refresh cycle fails: the per-meter extraction
`meter.get("values", [{}])[0]` indexes into the empty list (raising
`IndexError`) — or an earlier exception aborts the cycle first — so
`_async_update_data` raises `UpdateFailed`, no sentinel is recorded for
that meter, no data from the cycle enters the snapshot, and the
previously published snapshot is left unchanged. -/
theorem claimC9 (fsrc : Fetchers) (year : Nat) (sel : List String) (accs : List Account)
    (published : Snapshot) (a : Account) (gs : List (String × PyVal)) (lst : List PyVal)
    (bs : List (String × PyVal))
    (ha : a ∈ accs) (hsel : toString a.ID ∈ sel)
    (hmv : fsrc.metersOf (toString a.ID) (toString a.organizationID) = some (.dict gs))
    (hms : lookupField gs "meters" = some (.list lst))
    (hbad : PyVal.dict bs ∈ lst)
    (hval : lookupField bs "values" = some (.list [])) :
    (∃ e, asyncUpdateData fsrc year sel accs = .error e) ∧
    coordinatorRefresh published fsrc year sel accs = published := by
  have herr := meterStep_badValues hval
  have hmpE : ∀ snap1, ∃ e, metersPhase
      (fsrc.metersOf (toString a.ID) (toString a.organizationID)) snap1 = .error e := by
    rw [hmv]
    exact metersPhase_err hms hbad herr
  have hstepE := @accountStep_err fsrc year sel a hsel hmpE
  obtain ⟨e, he⟩ := runAccounts_err accs a ha hstepE { accounts := [], meters := [] }
  refine ⟨⟨e, he⟩, ?_⟩
  simp only [coordinatorRefresh, asyncUpdateData, he]

theorem claimC9_witness :
    (∃ e, asyncUpdateData fsBadMeter 2026 ["1", "2"] [⟨1, 5⟩, ⟨2, 5⟩] = .error e) ∧
    coordinatorRefresh publishedBefore fsBadMeter 2026 ["1", "2"] [⟨1, 5⟩, ⟨2, 5⟩] = publishedBefore :=
  claimC9 fsBadMeter 2026 ["1", "2"] [⟨1, 5⟩, ⟨2, 5⟩] publishedBefore ⟨2, 5⟩
    [("meters", .list [.dict [("ID", .int 9), ("values", .list [])]])]
    [.dict [("ID", .int 9), ("values", .list [])]]
    [("ID", .int 9), ("values", .list [])]
    (by simp) (by decide) rfl rfl (by simp) rfl

/-- Claim C8: every invocation of the `send_meter_readings` service
whose `meter_readings` list is empty is rejected by the voluptuous
schema (`vol.Length(min=1)`) with a validation error before anything
else happens: the handler raises and performs zero dispatches to the
API client, so no call reaches the request engine. -/
theorem claimC8 (states : String → Option EntityState) (api : SendApi)
    (dfs : List (String × PyVal))
    (hd : lookupField dfs "meter_readings" = some (.list [])) :
    ∃ msg, handleSendMeterReadings states api (.dict dfs) = (.error msg, 0) := by
  have hschema : ∃ m, sendMeterReadingsSchema (.dict dfs) = .error m := by
    by_cases hall : dfs.all
        (fun kv => kv.1 = "entity_id" || kv.1 = "meter_readings" || kv.1 = "confirm") = true
    · cases he : lookupField dfs "entity_id" with
      | none => exact ⟨_, by simp only [sendMeterReadingsSchema, if_pos hall, he]; rfl⟩
      | some ev =>
        cases ev with
        | str s =>
          refine ⟨"length of value must be at least 1 for dictionary value @ data['meter_readings']", ?_⟩
          simp only [sendMeterReadingsSchema, if_pos hall, he, hd]
          rfl
        | none => exact ⟨_, by simp only [sendMeterReadingsSchema, if_pos hall, he]; rfl⟩
        | bool b => exact ⟨_, by simp only [sendMeterReadingsSchema, if_pos hall, he]; rfl⟩
        | int n => exact ⟨_, by simp only [sendMeterReadingsSchema, if_pos hall, he]; rfl⟩
        | list xs => exact ⟨_, by simp only [sendMeterReadingsSchema, if_pos hall, he]; rfl⟩
        | dict gs => exact ⟨_, by simp only [sendMeterReadingsSchema, if_pos hall, he]; rfl⟩
    · exact ⟨_, by simp only [sendMeterReadingsSchema, if_neg hall]; rfl⟩
  obtain ⟨m, hm⟩ := hschema
  exact ⟨"Invalid input: " ++ m, by simp only [handleSendMeterReadings, hm]⟩

theorem claimC8_witness :
    ∃ msg, handleSendMeterReadings (fun _ => Option.none) (fun _ _ _ _ => Option.none)
      dataEmptyReadings = (.error msg, 0) :=
  claimC8 (fun _ => Option.none) (fun _ _ _ _ => Option.none)
    [("entity_id", .str "sensor.kvado_account"), ("meter_readings", .list [])] rfl


end Kvado
